import Mathlib

/-!
Shallow embedding of the workout_app repository core:
`src/workout/models.py`, `src/workout/services/workout_service.py`,
`src/workout/database/postgres_manager.py`, `src/workout/parsers/text_parser.py`.

Python ints are modelled as `Int`, Python `Optional[int]` as `Option Int`,
Python dicts as association lists, Python exceptions as `Except`.  Python float
arithmetic in `round(weight * (1 + reps / 30))` is modelled as exact rational
arithmetic with Python's round-half-to-even tie-breaking.  Stateful database
code is modelled by explicit state passing over a store state, with backend
outcomes (connection success, statement success, query results) supplied by an
oracle; the total Lean functions encode the Python methods' catch-all handlers
(no exception escapes to the caller).
-/

namespace WorkoutApp

/-- Calendar date, as produced by `datetime.date`. -/
structure PyDate where
  year : Nat
  month : Nat
  day : Nat
deriving DecidableEq, Repr

/-- Python `round` applied to the exact rational `num / den` (`den > 0`):
round to nearest, ties to even.  `fl` is the floor and `frac2` twice the
numerator of the fractional part; the result does not depend on the
common factors of `num` and `den`. -/
def pyRound (num den : ℤ) : ℤ :=
  let fl := Int.fdiv num den
  let frac2 := 2 * (num - fl * den)
  if frac2 = den then (if fl % 2 = 0 then fl else fl + 1)
  else if frac2 < den then fl else fl + 1

/-- `models.estimate_1rm_epley`: returns `none` when weight/reps is `None`,
`weight <= 0` or `reps < 0`, otherwise `round(weight * (1 + reps / 30))`. -/
def estimate_1rm_epley (weight reps : Option ℤ) : Option ℤ :=
  match weight, reps with
  | Option.none, _ => Option.none
  | _, Option.none => Option.none
  | some w, some r =>
    if w ≤ 0 ∨ r < 0 then Option.none
    else some (pyRound (w * (30 + r)) 30)

/-- `models.WorkoutRecord`: one workout set record. -/
structure WorkoutRecord where
  record_date : PyDate
  exercise_type : String
  weight : Option ℤ
  reps : Option ℤ
  sets : Option ℤ
  estimated_1rm : Option ℤ
deriving DecidableEq, Repr

/-- `WorkoutRecord.__init__`: when `estimated_1rm` is `None` it is computed
from `(weight, reps)` via `estimate_1rm_epley`. -/
def WorkoutRecord.make (record_date : PyDate) (exercise_type : String)
    (weight reps sets est : Option ℤ) : WorkoutRecord :=
  { record_date := record_date
    exercise_type := exercise_type
    weight := weight
    reps := reps
    sets := sets
    estimated_1rm :=
      match est with
      | some v => some v
      | Option.none => estimate_1rm_epley weight reps }

/-- The tuple shape of `WorkoutRecord.to_tuple`, used for DB insertion. -/
abbrev DBTuple := PyDate × String × Option ℤ × Option ℤ × Option ℤ × Option ℤ

/-- `WorkoutRecord.to_tuple`. -/
def WorkoutRecord.to_tuple (r : WorkoutRecord) : DBTuple :=
  (r.record_date, r.exercise_type, r.weight, r.reps, r.sets, r.estimated_1rm)

/-- Untyped Python values as they arrive in a request mapping. -/
inductive PyVal where
  | vnone : PyVal
  | vint : ℤ → PyVal
  | vstr : String → PyVal
deriving DecidableEq, Repr

/-- `str.strip()` on a character list: drop whitespace from both ends. -/
def stripChars (l : List Char) : List Char :=
  List.rdropWhile Char.isWhitespace (List.dropWhile Char.isWhitespace l)

/-- `str.strip()`. -/
def pyStrip (s : String) : String := String.mk (stripChars s.toList)

/-- Digit-run to number. -/
def digitsToNat (l : List Char) : Nat :=
  l.foldl (fun a c => a * 10 + (c.toNat - 48)) 0

/-- Python `int(s)` on a string: surrounding whitespace allowed, optional
sign, then a non-empty digit run; anything else raises `ValueError`
(modelled as `none`). -/
def pyIntOfString (s : String) : Option ℤ :=
  match stripChars s.toList with
  | [] => Option.none
  | '+' :: ds => if ds ≠ [] ∧ ds.all Char.isDigit then some (digitsToNat ds) else Option.none
  | '-' :: ds => if ds ≠ [] ∧ ds.all Char.isDigit then some (-(digitsToNat ds : ℤ)) else Option.none
  | ds => if ds.all Char.isDigit then some (digitsToNat ds) else Option.none

/-- Python `int(v)`: identity on ints, string parsing on strings,
`TypeError` (modelled `none`, handled like `ValueError` by the service)
on `None`. -/
def pyInt (v : PyVal) : Option ℤ :=
  match v with
  | PyVal.vnone => Option.none
  | PyVal.vint n => some n
  | PyVal.vstr s => pyIntOfString s

/-- `workout_service.ALLOWED_EXERCISE_TYPES`. -/
def ALLOWED_EXERCISE_TYPES : List String := ["벤치프레스", "데드리프트", "스쿼트"]

/-- The two service-layer exception classes of `workout_service.py`. -/
inductive ServiceError where
  | validationErr : String → ServiceError
  | databaseServiceErr : String → ServiceError
deriving DecidableEq, Repr

/-- Result shape of `WorkoutService.validate_workout_data` on success. -/
structure ValidatedData where
  exercise_type : String
  weight : ℤ
  reps : ℤ
  sets : ℤ
  record_date : PyDate
deriving DecidableEq, Repr

/-- A request body `Dict[str, Any]`. -/
abbrev PyDict := List (String × PyVal)

def required_fields : List String := ["exercise_type", "weight", "reps", "sets"]

/-- `WorkoutService.validate_workout_data`.  `today` stands for
`date.today()`.  Note the source's control flow faithfully: the range-check
`ValidationError` is raised inside the `try` block whose
`except (ValueError, TypeError)` clause does not match it, so it is caught
by the following `except Exception` clause and re-raised as
`DatabaseServiceError`. -/
def validate_workout_data (data : PyDict) (today : PyDate) :
    Except ServiceError ValidatedData :=
  if ¬ required_fields.all (fun f => (data.lookup f).isSome) then
    Except.error (ServiceError.validationErr "Missing required fields")
  else
    match data.lookup "exercise_type" with
    | some (PyVal.vstr s) =>
      let exercise_type := pyStrip s
      if exercise_type ∉ ALLOWED_EXERCISE_TYPES then
        Except.error (ServiceError.validationErr
          ("Invalid exercise type: '" ++ exercise_type ++ "'. Allowed types are: "
            ++ String.intercalate ", " ALLOWED_EXERCISE_TYPES))
      else
        match pyInt ((data.lookup "weight").getD PyVal.vnone),
              pyInt ((data.lookup "reps").getD PyVal.vnone),
              pyInt ((data.lookup "sets").getD PyVal.vnone) with
        | some numeric_weight, some numeric_reps, some numeric_sets =>
          if numeric_weight < 0 ∨ numeric_reps < 0 ∨ numeric_sets ≤ 0 then
            Except.error (ServiceError.databaseServiceErr
              ("An unexpected error occurred during validation. Details: "
                ++ "Weight, reps must be non-negative, sets must be positive"))
          else
            Except.ok
              { exercise_type := exercise_type
                weight := numeric_weight
                reps := numeric_reps
                sets := numeric_sets
                record_date := today }
        | _, _, _ =>
          Except.error (ServiceError.validationErr
            "Invalid data type for weight, reps, or sets. Must be integers.")
    | _ =>
      Except.error (ServiceError.validationErr
        "Invalid data type for exercise_type. Must be a string.")

/-- `WorkoutService.add_record`.  `insert` stands for the injected
`db_manager.insert_records`; `today` for `date.today()`.  A
`DatabaseServiceError` raised inside the `try` block (by validation, or by
the zero-inserted check) is caught by `except Exception` and re-raised
wrapped in `"An unexpected error occurred in service layer: ..."`;
`ValidationError` is re-raised unchanged. -/
def add_record (insert : List WorkoutRecord → Nat) (raw_data : PyDict)
    (today : PyDate) : Except ServiceError WorkoutRecord :=
  match validate_workout_data raw_data today with
  | Except.error (ServiceError.validationErr m) =>
    Except.error (ServiceError.validationErr m)
  | Except.error (ServiceError.databaseServiceErr m) =>
    Except.error (ServiceError.databaseServiceErr
      ("An unexpected error occurred in service layer: " ++ m))
  | Except.ok v =>
    let new_record := WorkoutRecord.make v.record_date v.exercise_type
      (some v.weight) (some v.reps) (some v.sets) Option.none
    let inserted_count := insert [new_record]
    if inserted_count = 0 then
      Except.error (ServiceError.databaseServiceErr
        ("An unexpected error occurred in service layer: "
          ++ "Failed to save workout record to database"))
    else
      Except.ok new_record

/-- Observable state of `PostgreSQLDatabaseManager` together with the backing
store: whether `self._conn` is a live connection, the contents of the
`records` table, and how many fresh `psycopg2.connect` calls were made. -/
structure PGState where
  conn_open : Bool
  table : List DBTuple
  connect_attempts : Nat
deriving Repr

/-- Outcomes supplied by the backend: whether a fresh connection attempt
succeeds, whether an `executemany`/`commit` of a given tuple batch succeeds
(a `False` stands for a raised `psycopg2.Error`), and what a read query
returns (`Except.error` stands for a raised `psycopg2.Error`; `Except.ok`
carries the cursor's column names and rows). -/
structure PGBehavior where
  connect_ok : Bool
  exec_insert : List DBTuple → Bool
  run_query : String → List PyVal → Except String (List String × List (List PyVal))

/-- `PostgreSQLDatabaseManager.connect`: reuse a live connection, else attempt
a fresh one; reports success as a `Bool`, never raises. -/
def connect (beh : PGBehavior) (st : PGState) : Bool × PGState :=
  if st.conn_open then (true, st)
  else if beh.connect_ok then
    (true, { st with conn_open := true, connect_attempts := st.connect_attempts + 1 })
  else
    (false, { st with conn_open := false, connect_attempts := st.connect_attempts + 1 })

/-- `PostgreSQLDatabaseManager.insert_records`: empty input returns `0` with
no I/O; otherwise connect (failure returns `0`), then `executemany` the
whole batch of `to_tuple` rows inside one transaction — on success `commit`
and return the full count, on a `psycopg2.Error` `rollback` (the table is
unchanged) and return `0`.  Every exception is caught inside the method. -/
def insert_records (beh : PGBehavior) (st : PGState)
    (records_list : List WorkoutRecord) : Nat × PGState :=
  if records_list = [] then (0, st)
  else
    let (ok, st1) := connect beh st
    if ¬ ok then (0, st1)
    else
      let data_to_insert := records_list.map WorkoutRecord.to_tuple
      if beh.exec_insert data_to_insert then
        (records_list.length, { st1 with table := st1.table ++ data_to_insert })
      else
        (0, st1)

/-- `PostgreSQLDatabaseManager.fetch_records`: connect (failure returns
`[]`), execute the query and return each row as the mapping
`dict(zip(columns, row))` in result order; any `psycopg2.Error` (or other
exception) yields `[]`.  The cursor is closed in `finally` but the
connection is left open; nothing is written. -/
def fetch_records (beh : PGBehavior) (st : PGState) (query : String)
    (params : List PyVal) : List (List (String × PyVal)) × PGState :=
  let (ok, st1) := connect beh st
  if ¬ ok then ([], st1)
  else
    match beh.run_query query params with
    | Except.ok (columns, rows) => (rows.map (fun row => columns.zip row), st1)
    | Except.error _ => ([], st1)

/-- `text_parser.EXERCISE_ALIASES`: alias → canonical exercise name. -/
def EXERCISE_ALIASES : List (String × String) :=
  [("벤치", "벤치프레스"), ("데드", "데드리프트"), ("스쿼트", "스쿼트")]

/-- `TextFileWorkoutParser.standardize_exercise_name`: strip, then look up in
the alias table, `None` when absent. -/
def standardize_exercise_name (potential_exercise : String) : Option String :=
  EXERCISE_ALIASES.lookup (pyStrip potential_exercise)

/-- The regex `^\s*\[(\d{4}-\d{1,2}-\d{1,2}).*\]\s*$` of `date_pattern`,
returning the captured year/month/day digit groups.  Greedy matching with
backtracking collapses to: exactly 4 year digits before `-`, a 1–2 digit
run before each `-`, at least one day digit of which the first two are
captured, and (since `.` also matches digits) the remainder must be `]`
followed only by whitespace. -/
def matchDateLine (s : String) : Option (Nat × Nat × Nat) :=
  let cs := s.toList.dropWhile Char.isWhitespace
  match cs with
  | '[' :: rest =>
    let ys := rest.takeWhile Char.isDigit
    let r1 := rest.dropWhile Char.isDigit
    if ys.length = 4 then
      match r1 with
      | '-' :: r2 =>
        let ms := r2.takeWhile Char.isDigit
        let r3 := r2.dropWhile Char.isDigit
        if ms.length = 1 ∨ ms.length = 2 then
          match r3 with
          | '-' :: r4 =>
            let ds := r4.takeWhile Char.isDigit
            let r5 := r4.dropWhile Char.isDigit
            if ds.length ≥ 1 then
              let rest' := ds.drop 2 ++ r5
              match rest'.reverse.dropWhile Char.isWhitespace with
              | ']' :: _ =>
                some (digitsToNat ys, digitsToNat ms, digitsToNat (ds.take 2))
              | _ => Option.none
            else Option.none
          | _ => Option.none
        else Option.none
      | _ => Option.none
    else Option.none
  | _ => Option.none

/-- The regex `(\d+)\s*\*\s*(\d+)` of `weight_reps_pattern` under `.match`
(anchored at the start only), returning the two captured numbers. -/
def matchWeightReps (s : String) : Option (Nat × Nat) :=
  let cs := s.toList
  let ws := cs.takeWhile Char.isDigit
  let r1 := cs.dropWhile Char.isDigit
  if ws ≠ [] then
    match r1.dropWhile Char.isWhitespace with
    | '*' :: r3 =>
      let r4 := r3.dropWhile Char.isWhitespace
      let rs := r4.takeWhile Char.isDigit
      if rs ≠ [] then some (digitsToNat ws, digitsToNat rs) else Option.none
    | _ => Option.none
  else Option.none

def isLeapYear (y : Nat) : Bool := (y % 4 = 0 && y % 100 ≠ 0) || y % 400 = 0

def daysInMonth (y m : Nat) : Nat :=
  if m = 2 then (if isLeapYear y then 29 else 28)
  else if m = 4 ∨ m = 6 ∨ m = 9 ∨ m = 11 then 30
  else 31

/-- `datetime.strptime(date_str, '%Y-%m-%d').date()` on the captured groups:
succeeds exactly on valid proleptic-Gregorian dates with year ≥ 1, else
raises `ValueError` (modelled as `none`). -/
def strptimeDate (y m d : Nat) : Option PyDate :=
  if 1 ≤ y ∧ 1 ≤ m ∧ m ≤ 12 ∧ 1 ≤ d ∧ d ≤ daysInMonth y m then
    some ⟨y, m, d⟩
  else Option.none

/-- The loop state of `TextFileWorkoutParser.parse`. -/
structure ParseState where
  current_date : Option PyDate
  current_exercise : Option String
  set_count : Nat
deriving DecidableEq, Repr

/-- One iteration of the line loop in `TextFileWorkoutParser.parse`:
strip the line, skip if empty; try the date pattern (a malformed date sets
`current_date = None`, a valid one also resets exercise and set counter);
try the weight×reps pattern (emits a record only under an active date and
exercise, incrementing the set counter); otherwise, under an active date,
a line whose standardized name is in the allowed list becomes the current
exercise and resets the set counter, and every other line is ignored. -/
def processLine (st : ParseState) (rawLine : String) :
    ParseState × List WorkoutRecord :=
  let line := pyStrip rawLine
  if line = "" then (st, [])
  else
    match matchDateLine line with
    | some (y, m, d) =>
      match strptimeDate y m d with
      | some dt => ({ current_date := some dt, current_exercise := Option.none, set_count := 0 }, [])
      | Option.none => ({ st with current_date := Option.none }, [])
    | Option.none =>
      match matchWeightReps line with
      | some (w, r) =>
        if st.current_date.isSome ∧ st.current_exercise.isSome then
          let set_count := st.set_count + 1
          let record := WorkoutRecord.make (st.current_date.getD ⟨1, 1, 1⟩)
            (st.current_exercise.getD "") (some (w : ℤ)) (some (r : ℤ))
            (some (set_count : ℤ)) Option.none
          ({ st with set_count := set_count }, [record])
        else (st, [])
      | Option.none =>
        if st.current_date.isSome then
          match standardize_exercise_name line with
          | some ex =>
            if ex ∈ ALLOWED_EXERCISE_TYPES then
              ({ st with current_exercise := some ex, set_count := 0 }, [])
            else (st, [])
          | Option.none => (st, [])
        else (st, [])

/-- The line loop of `TextFileWorkoutParser.parse` over the remaining lines. -/
def parseLines : ParseState → List String → List WorkoutRecord
  | _, [] => []
  | st, line :: rest =>
    (processLine st line).2 ++ parseLines (processLine st line).1 rest

/-- `TextFileWorkoutParser.parse` on the list of lines of the file (file
I/O is abstracted away; an unreadable file yields `[]` before any line is
seen). -/
def parse (lines : List String) : List WorkoutRecord :=
  parseLines ⟨Option.none, Option.none, 0⟩ lines

/-! Concrete stores, backends and records used as witness inputs. -/

def st0 : PGState := ⟨false, [], 0⟩

def stOpen : PGState := ⟨true, [], 0⟩

def rec0 : WorkoutRecord :=
  ⟨⟨2024, 1, 10⟩, "벤치프레스", some 100, some 5, some 1, some 117⟩

def behFail : PGBehavior :=
  ⟨false, fun _ => false, fun _ _ => Except.error "connection refused"⟩

def behExecFail : PGBehavior :=
  ⟨true, fun _ => false, fun _ _ => Except.error "constraint violation"⟩

def behOk : PGBehavior :=
  ⟨true, fun _ => true, fun _ _ => Except.ok (["weight"], [[PyVal.vint 100]])⟩

def behQueryErr : PGBehavior :=
  ⟨true, fun _ => true, fun _ _ => Except.error "syntax error"⟩

def data0 : PyDict :=
  [("exercise_type", PyVal.vstr " 벤치프레스 "), ("weight", PyVal.vint 100),
   ("reps", PyVal.vint 5), ("sets", PyVal.vint 1)]

def out0 : ValidatedData := ⟨"벤치프레스", 100, 5, 1, ⟨2024, 1, 10⟩⟩

/-! General lemmas about the embedded primitives. -/

theorem dropWhile_stripChars (l : List Char) :
    List.dropWhile Char.isWhitespace (stripChars l) = stripChars l := by
  unfold stripChars
  cases h : List.rdropWhile Char.isWhitespace (List.dropWhile Char.isWhitespace l) with
  | nil => simp
  | cons c cs =>
    have hpre : List.rdropWhile Char.isWhitespace
        (List.dropWhile Char.isWhitespace l) <+: List.dropWhile Char.isWhitespace l :=
      List.rdropWhile_prefix _ _
    rw [h] at hpre
    obtain ⟨t, ht⟩ := hpre
    have hl : List.dropWhile Char.isWhitespace l = c :: (cs ++ t) := by
      rw [← ht]; simp
    have hc := List.head?_dropWhile_not Char.isWhitespace l
    rw [hl] at hc
    simp only [List.head?_cons] at hc
    simp [List.dropWhile_cons, hc]

theorem stripChars_idem (l : List Char) : stripChars (stripChars l) = stripChars l := by
  conv_lhs => rw [stripChars]
  rw [dropWhile_stripChars, stripChars, List.rdropWhile_idempotent]

theorem pyStrip_idem (s : String) : pyStrip (pyStrip s) = pyStrip s := by
  simp [pyStrip, String.toList, stripChars_idem]

theorem make_estimated_1rm (d : PyDate) (e : String) (w r s : Option ℤ) :
    (WorkoutRecord.make d e w r s Option.none).estimated_1rm =
      estimate_1rm_epley w r := rfl

/-! Claims. -/

/-- C4: `estimate_1rm_epley` returns `none` exactly when weight or reps is
absent, `weight ≤ 0`, or `reps < 0`; otherwise it rounds the exact value
`weight * (1 + reps / 30) = weight * (30 + reps) / 30` with the host
language's default (half-to-even) rounding; in particular
`estimate_1rm(100, 5) = 117` and `estimate_1rm(100, 0) = 100`. -/
theorem C4_estimate_1rm_contract (ow orep : Option ℤ) :
    (estimate_1rm_epley ow orep = Option.none ↔
      ow = Option.none ∨ orep = Option.none ∨
        (∃ w, ow = some w ∧ w ≤ 0) ∨ (∃ r, orep = some r ∧ r < 0)) ∧
    (∀ w r : ℤ, ow = some w → orep = some r → 0 < w → 0 ≤ r →
      estimate_1rm_epley ow orep = some (pyRound (w * (30 + r)) 30)) ∧
    estimate_1rm_epley (some 100) (some 5) = some 117 ∧
    estimate_1rm_epley (some 100) (some 0) = some 100 := by
  refine ⟨?_, ?_, by decide, by decide⟩
  · cases ow with
    | none => simp [estimate_1rm_epley]
    | some w =>
      cases orep with
      | none => simp [estimate_1rm_epley]
      | some r =>
        by_cases h : w ≤ 0 ∨ r < 0 <;> simp [estimate_1rm_epley, h]
  · intro w r hw hr hpos hnn
    subst hw; subst hr
    simp [estimate_1rm_epley, show ¬ (w ≤ 0 ∨ r < 0) by omega]

/-- C4 witness: the rounding branch applied at `weight = 100`, `reps = 5`. -/
theorem C4_witness :
    estimate_1rm_epley (some 100) (some 5) =
      some (pyRound (100 * (30 + 5)) 30) :=
  (C4_estimate_1rm_contract (some 100) (some 5)).2.1 100 5 rfl rfl
    (by decide) (by decide)

/-- C2: the claim says an in-range-violating but otherwise well-typed input
fails with `ValidationError`.  The source raises
`ValidationError("Weight, reps must be non-negative, sets must be positive")`
inside the `try` block, whose `except (ValueError, TypeError)` clause does
not match it, so the `except Exception` clause converts it to
`DatabaseServiceError` — contradicting both the spec and the message the
code itself constructs.  This theorem evaluates the embedded code at the
failing input. -/
theorem C2_range_violation_is_database_error :
    validate_workout_data
      [("exercise_type", PyVal.vstr "스쿼트"), ("weight", PyVal.vint (-1)),
       ("reps", PyVal.vint 5), ("sets", PyVal.vint 1)] ⟨2024, 1, 10⟩ =
    Except.error (ServiceError.databaseServiceErr
      ("An unexpected error occurred during validation. Details: "
        ++ "Weight, reps must be non-negative, sets must be positive")) := rfl

/-- C1 counterexample: with a store that reports the full batch length (so a
singleton batch always reports `1`, never `0`), `add_record` on a
well-typed input with `weight = -1` still fails with `DatabaseServiceError`
(the range-check `ValidationError` is converted by the `except Exception`
clauses), refuting "fails with `DatabaseServiceError` exactly when the
store reports an inserted count of 0". -/
theorem C1_counterexample :
    add_record List.length
      [("exercise_type", PyVal.vstr "스쿼트"), ("weight", PyVal.vint (-1)),
       ("reps", PyVal.vint 5), ("sets", PyVal.vint 1)] ⟨2024, 1, 10⟩ =
    Except.error (ServiceError.databaseServiceErr
      ("An unexpected error occurred in service layer: "
        ++ "An unexpected error occurred during validation. Details: "
        ++ "Weight, reps must be non-negative, sets must be positive")) ∧
    List.length [rec0] = 1 :=
  ⟨rfl, rfl⟩

/-- C1 amended: `add_record` validates first and propagates `ValidationError`
unchanged (a `DatabaseServiceError` raised during validation is re-wrapped);
for every input on which validation succeeds it constructs the
`WorkoutRecord` with the derived 1RM and inserts it as a single-element
batch, fails with `DatabaseServiceError` iff the store reports an inserted
count of 0, and otherwise returns the constructed record including its
computed `estimated_1rm`. -/
theorem C1_add_record_amended (insert : List WorkoutRecord → Nat)
    (data : PyDict) (today : PyDate) :
    (∀ m, validate_workout_data data today =
        Except.error (ServiceError.validationErr m) →
      add_record insert data today =
        Except.error (ServiceError.validationErr m)) ∧
    (∀ v, validate_workout_data data today = Except.ok v →
      (insert [WorkoutRecord.make v.record_date v.exercise_type
          (some v.weight) (some v.reps) (some v.sets) Option.none] = 0 →
        add_record insert data today =
          Except.error (ServiceError.databaseServiceErr
            ("An unexpected error occurred in service layer: "
              ++ "Failed to save workout record to database"))) ∧
      (insert [WorkoutRecord.make v.record_date v.exercise_type
          (some v.weight) (some v.reps) (some v.sets) Option.none] ≠ 0 →
        add_record insert data today = Except.ok
          (WorkoutRecord.make v.record_date v.exercise_type
            (some v.weight) (some v.reps) (some v.sets) Option.none) ∧
        (WorkoutRecord.make v.record_date v.exercise_type
            (some v.weight) (some v.reps) (some v.sets) Option.none).estimated_1rm =
          estimate_1rm_epley (some v.weight) (some v.reps))) := by
  refine ⟨?_, ?_⟩
  · intro m hm
    simp [add_record, hm]
  · intro v hv
    refine ⟨fun h0 => ?_, fun h0 => ⟨?_, make_estimated_1rm _ _ _ _ _⟩⟩ <;>
      simp [add_record, hv, h0]

/-- C1 witness: a successful end-to-end `add_record` call. -/
theorem C1_witness :
    add_record List.length
      [("exercise_type", PyVal.vstr " 벤치프레스 "), ("weight", PyVal.vint 100),
       ("reps", PyVal.vint 5), ("sets", PyVal.vint 1)] ⟨2024, 1, 10⟩ =
      Except.ok (WorkoutRecord.make ⟨2024, 1, 10⟩ "벤치프레스"
        (some 100) (some 5) (some 1) Option.none) ∧
    (WorkoutRecord.make ⟨2024, 1, 10⟩ "벤치프레스"
        (some 100) (some 5) (some 1) Option.none).estimated_1rm =
      estimate_1rm_epley (some 100) (some 5) :=
  ((C1_add_record_amended List.length
      [("exercise_type", PyVal.vstr " 벤치프레스 "), ("weight", PyVal.vint 100),
       ("reps", PyVal.vint 5), ("sets", PyVal.vint 1)] ⟨2024, 1, 10⟩).2
    ⟨"벤치프레스", 100, 5, 1, ⟨2024, 1, 10⟩⟩ rfl).2 (by decide)

/-- C6: `parse` on a date header for 2024-1-10, a bench-press alias line and
the set lines `100*5` and `80*8` returns exactly the two records in file
order with set-sequence numbers 1 and 2 and 1RMs 117 and 101. -/
theorem C6_parse_example :
    parse ["[2024-1-10]", "벤치", "100*5", "80*8"] =
      [⟨⟨2024, 1, 10⟩, "벤치프레스", some 100, some 5, some 1, some 117⟩,
       ⟨⟨2024, 1, 10⟩, "벤치프레스", some 80, some 8, some 2, some 101⟩] := by
  decide

/-- C8: `insert_records` on the empty list returns 0 and leaves the store
state (connection flag, table contents, connection-attempt count) exactly
unchanged: no I/O, no connection attempt. -/
theorem C8_insert_empty_no_io (beh : PGBehavior) (st : PGState) :
    insert_records beh st [] = (0, st) := rfl

/-- C5: on every input on which validation succeeds, the result's
`exercise_type` is the whitespace-trimmed client string and a member of the
fixed three-item vocabulary, `weight ≥ 0`, `reps ≥ 0`, `sets ≥ 1`, and
`record_date` is the server-assigned current date, never client input. -/
theorem C5_validate_success_shape (data : PyDict) (today : PyDate)
    (out : ValidatedData)
    (h : validate_workout_data data today = Except.ok out) :
    out.exercise_type ∈ ALLOWED_EXERCISE_TYPES ∧
    (∃ s, data.lookup "exercise_type" = some (PyVal.vstr s) ∧
      out.exercise_type = pyStrip s) ∧
    0 ≤ out.weight ∧ 0 ≤ out.reps ∧ 1 ≤ out.sets ∧
    out.record_date = today := by
  unfold validate_workout_data at h
  by_cases hreq : required_fields.all (fun f => (data.lookup f).isSome) = true
  case neg => simp [hreq] at h
  cases hex : data.lookup "exercise_type" with
  | none => simp [hreq, hex] at h
  | some v =>
    cases v with
    | vnone => simp [hreq, hex] at h
    | vint n => simp [hreq, hex] at h
    | vstr s =>
      by_cases hmem : pyStrip s ∈ ALLOWED_EXERCISE_TYPES
      case neg => simp [hreq, hex, hmem] at h
      cases hwv : pyInt ((data.lookup "weight").getD PyVal.vnone) with
      | none => simp [hreq, hex, hmem, hwv] at h
      | some nw =>
        cases hrv : pyInt ((data.lookup "reps").getD PyVal.vnone) with
        | none => simp [hreq, hex, hmem, hwv, hrv] at h
        | some nr =>
          cases hsv : pyInt ((data.lookup "sets").getD PyVal.vnone) with
          | none => simp [hreq, hex, hmem, hwv, hrv, hsv] at h
          | some ns =>
            by_cases hrange : nw < 0 ∨ nr < 0 ∨ ns ≤ 0
            case pos => simp [hreq, hex, hmem, hwv, hrv, hsv, hrange] at h
            simp [hreq, hex, hmem, hwv, hrv, hsv, hrange] at h
            subst h
            refine ⟨hmem, ⟨s, rfl, rfl⟩, ?_, ?_, ?_, rfl⟩ <;> dsimp only <;> omega

/-- C5 witness: a concrete accepted input with surrounding whitespace. -/
theorem C5_witness :
    out0.exercise_type ∈ ALLOWED_EXERCISE_TYPES ∧
    (∃ s, data0.lookup "exercise_type" = some (PyVal.vstr s) ∧
      out0.exercise_type = pyStrip s) ∧
    0 ≤ out0.weight ∧ 0 ≤ out0.reps ∧ 1 ≤ out0.sets ∧
    out0.record_date = ⟨2024, 1, 10⟩ :=
  C5_validate_success_shape data0 ⟨2024, 1, 10⟩ out0 rfl

/-- C3: on every non-empty batch, `insert_records` either writes every
record's tuple (appending the whole batch to the table in order) and
returns the full count, or returns 0 with the table exactly as before (in
particular on connection failure and on a backend-reported statement
error); it never returns a partial count, and as a total function it never
throws to the caller. -/
theorem C3_insert_all_or_nothing (beh : PGBehavior) (st : PGState)
    (records_list : List WorkoutRecord) (h : records_list ≠ []) :
    (((insert_records beh st records_list).1 = records_list.length ∧
      (insert_records beh st records_list).2.table =
        st.table ++ records_list.map WorkoutRecord.to_tuple) ∨
     ((insert_records beh st records_list).1 = 0 ∧
      (insert_records beh st records_list).2.table = st.table)) ∧
    (st.conn_open = false → beh.connect_ok = false →
      (insert_records beh st records_list).1 = 0 ∧
      (insert_records beh st records_list).2.table = st.table) ∧
    (beh.exec_insert (records_list.map WorkoutRecord.to_tuple) = false →
      (insert_records beh st records_list).1 = 0 ∧
      (insert_records beh st records_list).2.table = st.table) := by
  unfold insert_records connect
  by_cases h1 : st.conn_open = true <;>
    by_cases h2 : beh.connect_ok = true <;>
      by_cases h3 : beh.exec_insert (records_list.map WorkoutRecord.to_tuple) = true <;>
        simp_all [Bool.not_eq_true]

/-- C3 witness: a backend statement failure on a singleton batch rolls the
whole batch back and reports 0. -/
theorem C3_witness :
    (((insert_records behExecFail st0 [rec0]).1 = [rec0].length ∧
      (insert_records behExecFail st0 [rec0]).2.table =
        st0.table ++ [rec0].map WorkoutRecord.to_tuple) ∨
     ((insert_records behExecFail st0 [rec0]).1 = 0 ∧
      (insert_records behExecFail st0 [rec0]).2.table = st0.table)) ∧
    (st0.conn_open = false → behExecFail.connect_ok = false →
      (insert_records behExecFail st0 [rec0]).1 = 0 ∧
      (insert_records behExecFail st0 [rec0]).2.table = st0.table) ∧
    (behExecFail.exec_insert ([rec0].map WorkoutRecord.to_tuple) = false →
      (insert_records behExecFail st0 [rec0]).1 = 0 ∧
      (insert_records behExecFail st0 [rec0]).2.table = st0.table) :=
  C3_insert_all_or_nothing behExecFail st0 [rec0] (by simp)

/-- C7: `fetch_records` returns `[]` on connection failure and on any
backend-reported query error, returns each result row as the column-to-value
mapping `dict(zip(columns, row))` in result order on success, never throws
(it is a total function), leaves the table unchanged, and leaves the
connection open after the call. -/
theorem C7_fetch_records_contract (beh : PGBehavior) (st : PGState)
    (query : String) (params : List PyVal) :
    (st.conn_open = false → beh.connect_ok = false →
      (fetch_records beh st query params).1 = []) ∧
    (∀ e, beh.run_query query params = Except.error e →
      (fetch_records beh st query params).1 = []) ∧
    (∀ columns rows, beh.run_query query params = Except.ok (columns, rows) →
      (st.conn_open = true ∨ beh.connect_ok = true) →
      (fetch_records beh st query params).1 =
        rows.map (fun row => columns.zip row)) ∧
    ((st.conn_open = true ∨ beh.connect_ok = true) →
      (fetch_records beh st query params).2.conn_open = true) ∧
    (fetch_records beh st query params).2.table = st.table := by
  unfold fetch_records connect
  by_cases h1 : st.conn_open = true <;>
    by_cases h2 : beh.connect_ok = true <;>
      cases hq : beh.run_query query params <;>
        simp_all [Bool.not_eq_true]

/-- C7 witness: a successful read returns the zipped rows; a query error
under an open connection returns `[]`. -/
theorem C7_witness :
    (fetch_records behOk st0 "SELECT * FROM records" []).1 =
      [[("weight", PyVal.vint 100)]] ∧
    (fetch_records behQueryErr stOpen "SELECT * FROM records" []).1 = [] :=
  ⟨(C7_fetch_records_contract behOk st0 "SELECT * FROM records" []).2.2.1
      ["weight"] [[PyVal.vint 100]] rfl (Or.inr rfl),
    (C7_fetch_records_contract behQueryErr stOpen "SELECT * FROM records" []).2.1
      "syntax error" rfl⟩

theorem processLine_est (st : ParseState) (line : String) (r : WorkoutRecord)
    (hr : r ∈ (processLine st line).2) :
    r.estimated_1rm = estimate_1rm_epley r.weight r.reps := by
  unfold processLine at hr
  by_cases h0 : pyStrip line = ""
  · simp [h0] at hr
  · cases hd : matchDateLine (pyStrip line) with
    | some ymd =>
      obtain ⟨y, m, d⟩ := ymd
      cases hsd : strptimeDate y m d <;> simp [h0, hd, hsd] at hr
    | none =>
      cases hw : matchWeightReps (pyStrip line) with
      | some wr =>
        obtain ⟨w, rp⟩ := wr
        by_cases hde : st.current_date.isSome = true ∧ st.current_exercise.isSome = true
        · simp [h0, hd, hw, hde] at hr
          subst hr
          exact make_estimated_1rm _ _ _ _ _
        · simp [h0, hd, hw, hde] at hr
      | none =>
        by_cases hda : st.current_date.isSome = true
        · cases hst : standardize_exercise_name (pyStrip line) with
          | some ex =>
            by_cases hm : ex ∈ ALLOWED_EXERCISE_TYPES <;>
              simp [h0, hd, hw, hda, hst, hm] at hr
          | none => simp [h0, hd, hw, hda, hst] at hr
        · simp [h0, hd, hw, hda] at hr

theorem parseLines_est (lines : List String) :
    ∀ st, ∀ r ∈ parseLines st lines,
      r.estimated_1rm = estimate_1rm_epley r.weight r.reps := by
  induction lines with
  | nil => intro st r hr; simp [parseLines] at hr
  | cons line rest ih =>
    intro st r hr
    simp only [parseLines, List.mem_append] at hr
    rcases hr with hr | hr
    · exact processLine_est st line r hr
    · exact ih _ r hr

/-- C9: every record produced by the two creation paths (`add_record` and
the text parser, neither of which ever supplies a precomputed value)
satisfies `estimated_1rm = estimate_1rm_epley(weight, reps)`. -/
theorem C9_estimated_1rm_rederivable :
    (∀ (insert : List WorkoutRecord → Nat) (data : PyDict) (today : PyDate)
        (r : WorkoutRecord), add_record insert data today = Except.ok r →
      r.estimated_1rm = estimate_1rm_epley r.weight r.reps) ∧
    (∀ (lines : List String) (r : WorkoutRecord), r ∈ parse lines →
      r.estimated_1rm = estimate_1rm_epley r.weight r.reps) := by
  constructor
  · intro insert data today r h
    unfold add_record at h
    cases hv : validate_workout_data data today with
    | error e => cases e <;> simp [hv] at h
    | ok v =>
      by_cases hz : insert [WorkoutRecord.make v.record_date v.exercise_type
          (some v.weight) (some v.reps) (some v.sets) Option.none] = 0
      · simp [hv, hz] at h
      · simp [hv, hz] at h
        subst h
        exact make_estimated_1rm _ _ _ _ _
  · intro lines r hr
    exact parseLines_est lines _ r hr

/-- C9 witness: the derived-field invariant at a record coming out of the
parser path. -/
theorem C9_witness :
    rec0.estimated_1rm = estimate_1rm_epley rec0.weight rec0.reps :=
  C9_estimated_1rm_rederivable.2 ["[2024-1-10]", "벤치", "100*5"] rec0 (by decide)

theorem lookup_aliases_allowed (s e : String)
    (h : EXERCISE_ALIASES.lookup s = some e) : e ∈ ALLOWED_EXERCISE_TYPES := by
  unfold EXERCISE_ALIASES at h
  simp only [List.lookup] at h
  repeat' split at h
  all_goals simp_all [ALLOWED_EXERCISE_TYPES]

/-- C10: under an active date, a non-empty line that is neither a date
header nor a set line becomes the current exercise iff its trimmed text is
a key of the alias table (every alias value is in the allowed vocabulary),
and is ignored otherwise; the canonical names `벤치프레스` and `데드리프트` are
not alias keys, so set lines following only such a line produce no
records. -/
theorem C10_exercise_header_iff_alias (st : ParseState) (line : String)
    (hdate : st.current_date.isSome = true)
    (hnotdate : matchDateLine (pyStrip line) = Option.none)
    (hnotset : matchWeightReps (pyStrip line) = Option.none)
    (hne : pyStrip line ≠ "") :
    ((processLine st line).1.current_exercise =
      match EXERCISE_ALIASES.lookup (pyStrip line) with
      | some ex => some ex
      | Option.none => st.current_exercise) ∧
    EXERCISE_ALIASES.lookup "벤치프레스" = Option.none ∧
    EXERCISE_ALIASES.lookup "데드리프트" = Option.none ∧
    parse ["[2024-1-10]", "벤치프레스", "100*5"] = [] ∧
    parse ["[2024-1-10]", "데드리프트", "100*5"] = [] := by
  refine ⟨?_, by decide, by decide, by decide, by decide⟩
  cases hl : EXERCISE_ALIASES.lookup (pyStrip line) with
  | none =>
    simp [processLine, standardize_exercise_name, pyStrip_idem, hne,
      hnotdate, hnotset, hdate, hl]
  | some ex =>
    have hmem := lookup_aliases_allowed _ _ hl
    simp [processLine, standardize_exercise_name, pyStrip_idem, hne,
      hnotdate, hnotset, hdate, hl, hmem]

/-- C10 witness: the alias line `벤치` under an active date sets the current
exercise to the canonical `벤치프레스`. -/
theorem C10_witness :
    ((processLine ⟨some ⟨2024, 1, 10⟩, Option.none, 0⟩ "벤치").1.current_exercise =
      match EXERCISE_ALIASES.lookup (pyStrip "벤치") with
      | some ex => some ex
      | Option.none =>
        (⟨some ⟨2024, 1, 10⟩, Option.none, 0⟩ : ParseState).current_exercise) ∧
    EXERCISE_ALIASES.lookup "벤치프레스" = Option.none ∧
    EXERCISE_ALIASES.lookup "데드리프트" = Option.none ∧
    parse ["[2024-1-10]", "벤치프레스", "100*5"] = [] ∧
    parse ["[2024-1-10]", "데드리프트", "100*5"] = [] :=
  C10_exercise_header_iff_alias ⟨some ⟨2024, 1, 10⟩, Option.none, 0⟩ "벤치"
    rfl (by decide) (by decide) (by decide)

end WorkoutApp
